import Mathlib

/-!
Verification of the litchi markdown rendering core (`src/markdown/writer.rs`,
`src/markdown/document.rs`) against its natural-language specification.

Strings are modelled as `List Char`.  The Rust code scans UTF-8 bytes with
`memchr`, but every character it treats specially is a single ASCII byte, so
on the byte level the transformations coincide with the character-level
recursions written here.  Rust `usize` arithmetic is `Nat`.  The writer's
fallible signatures (`Result<()>`) are kept as `Except RenderErr`; in this
pure model the only fallible operations of the source — accessors of the
external document model — are total structure fields, so every embedded
function is structurally `.ok`, mirroring that rendering itself never
constructs an error.
-/

/-- Modelled from the spec: the `TableStyle` option enum of the configuration
module (the `markdown::config` module is not under `src/`); the three variants
are the ones matched by `write_table`. -/
inductive TableStyle
  | markdown
  | minimalHtml
  | styledHtml
deriving DecidableEq

/-- Modelled from the spec: the `ScriptStyle` option enum (config module not
under `src/`). -/
inductive ScriptStyle
  | html
  | unicode
deriving DecidableEq

/-- Modelled from the spec: the `StrikethroughStyle` option enum (config
module not under `src/`). -/
inductive StrikethroughStyle
  | markdown
  | html
deriving DecidableEq

/-- Modelled from the spec: the `FormulaStyle` option enum (config module not
under `src/`): latex-delimited or dollar-delimited. -/
inductive FormulaStyle
  | latex
  | dollar
deriving DecidableEq

/-- Modelled from the spec: the `MarkdownOptions` configuration record; the
fields are the recognized options enumerated in the spec and read by
`writer.rs`. -/
structure MarkdownOptions where
  include_metadata : Bool
  include_styles : Bool
  use_parallel : Bool
  table_style : TableStyle
  script_style : ScriptStyle
  strikethrough_style : StrikethroughStyle
  formula_style : FormulaStyle
  list_indent : Nat
  html_table_indent : Nat
deriving DecidableEq

/-- `crate::common::VerticalPosition`. -/
inductive VerticalPosition
  | normal
  | superscript
  | subscript
deriving DecidableEq

/-- `crate::ooxml::docx::VMergeState`: restart begins a vertical merge,
`cont` (the source's `Continue`) extends it. -/
inductive VMergeState
  | restart
  | cont
deriving DecidableEq

/-- A math payload attached to a run.  The external converters
(`formula::omml_to_latex`, `formula::latex::LatexConverter`) are not under
`src/`; each payload is therefore represented by the result the external
converter returns for it (`Except.error` = conversion failure), which is all
`writer.rs` observes.  `mtefNoAst` models an OLE run for which
`has_mtef_formula()` is true but `mtef_formula_ast()` returns `None`. -/
inductive FormulaPayload
  | omml (conv : Except Unit (List Char))
  | mtefAst (conv : Except Unit (List Char))
  | mtefNoAst

/-- `crate::document::Run`, reduced to the capability surface `writer.rs`
consumes: `text()`, tri-state `bold()/italic()/strikethrough()`,
`vertical_position()`, and the optional math payload probed by
`extract_formula_from_run`. -/
structure Run where
  text : List Char
  bold : Option Bool
  italic : Option Bool
  strikethrough : Option Bool
  vertical_position : Option VerticalPosition
  formula : Option FormulaPayload

/-- `crate::document::Cell` as consumed by the table code:
`text()`, `grid_span()` (the `unwrap_or(1)` default is applied at use sites,
as in the source) and `v_merge()`. -/
structure Cell where
  text : List Char
  grid_span : Option Nat
  v_merge : Option VMergeState

/-- A table row: `row.cells()`. -/
structure Row where
  cells : List Cell

/-- A table: `table.rows()`. -/
structure Table where
  rows : List Row

/-- A paragraph as consumed by `write_paragraph`: its runs, its `text()`, and
the paragraph-level (display) formulas; each display formula is represented by
the result of the external `omml_to_latex` conversion of its OMML payload
(converter not under `src/`), which is all the writer observes. -/
structure Paragraph where
  runs : List Run
  text : List Char
  display_formulas : List (Except Unit (List Char))

/-- `crate::document::DocumentElement`. -/
inductive DocumentElement
  | para (p : Paragraph)
  | table (t : Table)

/-- A document: its ordered elements and the YAML front matter its metadata
renders to (`Metadata::to_yaml_front_matter` is not under `src/`; it is
modelled by its output string). -/
structure Document where
  elements : List DocumentElement
  metadata_yaml : List Char

/-- `ListItemInfo` from `writer.rs`. -/
inductive ListType
  | ordered
  | unordered
deriving DecidableEq

structure ListItemInfo where
  list_type : ListType
  level : Nat
  marker : List Char
  content : List Char
deriving DecidableEq

/-- `CellSpan` from `writer.rs`. -/
structure CellSpan where
  colspan : Nat
  rowspan : Nat
  skip : Bool
deriving DecidableEq

/-- `CellSpan::new()`. -/
def CellSpan.new : CellSpan := ⟨1, 1, false⟩

/-- `CellSpan::skipped()`. -/
def CellSpan.skipped : CellSpan := ⟨1, 1, true⟩

/-- `CellData` from `writer.rs`: pre-extracted per-cell span data. -/
structure CellData where
  grid_span : Nat
  v_merge : Option VMergeState
deriving DecidableEq

/-- The render error type (`crate::common::Error`), reduced to the one
constructor `writer.rs` itself builds (`Error::Other`). -/
inductive RenderErr
  | other (msg : List Char)
deriving DecidableEq

deriving instance DecidableEq for Except
deriving instance DecidableEq for FormulaPayload
deriving instance DecidableEq for Run
deriving instance DecidableEq for Cell
deriving instance DecidableEq for Row
deriving instance DecidableEq for Table

/-- `MarkdownWriter`: output buffer, options, and the open-marker state. -/
structure MarkdownWriter where
  buffer : List Char
  options : MarkdownOptions
  current_bold : Bool
  current_italic : Bool
  current_strikethrough : Bool
deriving DecidableEq

/-- `MarkdownWriter::new` (the capacity pre-allocation has no observable
effect on the buffer contents). -/
def MarkdownWriter.new (options : MarkdownOptions) : MarkdownWriter :=
  ⟨[], options, false, false, false⟩

/-- `self.buffer.push_str(text)` (also covers `push` of a single char). -/
def MarkdownWriter.push_str (w : MarkdownWriter) (text : List Char) : MarkdownWriter :=
  { w with buffer := w.buffer ++ text }

/- ---------------------------------------------------------------------- -/
/- String helpers mirroring the `str` operations used by the source.       -/
/- ---------------------------------------------------------------------- -/

/-- `str::ends_with` for a suffix (also used with a single character). -/
def ends_with (s suffix : List Char) : Bool :=
  decide (s.drop (s.length - suffix.length) = suffix)

/-- `str::trim_start`. -/
def trimStart (s : List Char) : List Char :=
  s.dropWhile Char.isWhitespace

/-- `str::trim`. -/
def trimChars (s : List Char) : List Char :=
  ((s.dropWhile Char.isWhitespace).reverse.dropWhile Char.isWhitespace).reverse

/-- `str::trim_start_matches(pat)`: repeatedly strip a leading occurrence of
`pat`.  The fuel starts at `s.length`; every successful strip removes at least
one character (`pat ≠ []` is part of the guard), so the fuel never runs out. -/
def trim_start_matches_aux : Nat → List Char → List Char → List Char
  | 0, _, s => s
  | fuel + 1, pat, s =>
    if pat ≠ [] ∧ s.take pat.length = pat then
      trim_start_matches_aux fuel pat (s.drop pat.length)
    else s

def trim_start_matches (pat s : List Char) : List Char :=
  trim_start_matches_aux s.length pat s

/-- `str::trim_start_matches(c)` for a single-character pattern: repeated
stripping of one char is exactly `dropWhile`. -/
def trim_start_matches_char (c : Char) (s : List Char) : List Char :=
  s.dropWhile (fun x => x = c)

/-- `str::trim_end_matches(c)` for a single-character pattern. -/
def trim_end_matches_char (c : Char) (s : List Char) : List Char :=
  (s.reverse.dropWhile (fun x => x = c)).reverse

/-- `str::find(&str)`: byte index of the first occurrence of `pat` (index =
character index for the ASCII inputs of the source's list patterns). -/
def find_sub_aux (pat : List Char) : List Char → Nat → Option Nat
  | [], i => if pat = [] then some i else none
  | c :: rest, i =>
    if (c :: rest).take pat.length = pat then some i
    else find_sub_aux pat rest (i + 1)

def find_substring (pat s : List Char) : Option Nat :=
  find_sub_aux pat s 0

/-- Substring containment, via `find_substring`. -/
def contains_sub (pat s : List Char) : Bool :=
  (find_substring pat s).isSome

/-- Decimal rendering of a `usize` (the `write!(.., "{}", n)` calls). -/
def nat_chars (n : Nat) : List Char :=
  (Nat.repr n).toList

/- ---------------------------------------------------------------------- -/
/- Escapers (`escape_markdown_to_buffer`, `escape_html_to_buffer`).        -/
/- ---------------------------------------------------------------------- -/

/-- `MarkdownWriter::escape_markdown_to_buffer`: escape `|` as `\|` and
replace `\n` by a space; all other bytes are copied through unchanged.  The
source walks the bytes with `memchr`, copying the runs between special bytes
verbatim; character-by-character recursion appends exactly the same
characters in the same order. -/
def escape_markdown : List Char → List Char
  | [] => []
  | c :: rest =>
    if c = '|' then '\\' :: '|' :: escape_markdown rest
    else if c = '\n' then ' ' :: escape_markdown rest
    else c :: escape_markdown rest

/-- `MarkdownWriter::escape_html_to_buffer`: escape `&`, `<`, `>` and turn a
newline into `<br>`; all other bytes are copied through unchanged. -/
def escape_html : List Char → List Char
  | [] => []
  | c :: rest =>
    if c = '&' then ("&amp;".toList) ++ escape_html rest
    else if c = '<' then ("&lt;".toList) ++ escape_html rest
    else if c = '>' then ("&gt;".toList) ++ escape_html rest
    else if c = '\n' then ("<br>".toList) ++ escape_html rest
    else c :: escape_html rest

/- ---------------------------------------------------------------------- -/
/- Claim C8.                                                               -/
/- ---------------------------------------------------------------------- -/

lemma escape_markdown_id (s : List Char) (h : ∀ c ∈ s, c ≠ '|' ∧ c ≠ '\n') :
    escape_markdown s = s := by
  induction s with
  | nil => rfl
  | cons c rest ih =>
    have hc := h c (by simp)
    have hrest : ∀ x ∈ rest, x ≠ '|' ∧ x ≠ '\n' := fun x hx => h x (by simp [hx])
    simp [escape_markdown, hc.1, hc.2, ih hrest]

lemma escape_html_id (s : List Char)
    (h : ∀ c ∈ s, c ≠ '&' ∧ c ≠ '<' ∧ c ≠ '>' ∧ c ≠ '\n') :
    escape_html s = s := by
  induction s with
  | nil => rfl
  | cons c rest ih =>
    have hc := h c (by simp)
    have hrest : ∀ x ∈ rest, x ≠ '&' ∧ x ≠ '<' ∧ x ≠ '>' ∧ x ≠ '\n' :=
      fun x hx => h x (by simp [hx])
    simp [escape_html, hc.1, hc.2.1, hc.2.2.1, hc.2.2.2, ih hrest]

/-- Claim C8: the Markdown escaper returns any input containing neither `|`
nor a newline unchanged; the HTML escaper returns any input containing none
of `&`, `<`, `>`, newline unchanged; escaping `"a|b\nc"` in Markdown mode
yields `"a\|b c"`; and escaping `"a&b<c>d\n"` in HTML mode yields
`"a&amp;b&lt;c&gt;d<br>"`. -/
theorem C8_escaping :
    (∀ s : List Char, (∀ c ∈ s, c ≠ '|' ∧ c ≠ '\n') → escape_markdown s = s) ∧
    (∀ s : List Char, (∀ c ∈ s, c ≠ '&' ∧ c ≠ '<' ∧ c ≠ '>' ∧ c ≠ '\n') →
      escape_html s = s) ∧
    escape_markdown ("a|b\nc".toList) = "a\\|b c".toList ∧
    escape_html ("a&b<c>d\n".toList) = "a&amp;b&lt;c&gt;d<br>".toList := by
  refine ⟨escape_markdown_id, escape_html_id, by decide, by decide⟩

/-- Witness for C8 at a concrete trigger-free input. -/
theorem C8_escaping_witness :
    escape_markdown ("plain text".toList) = "plain text".toList :=
  C8_escaping.1 ("plain text".toList) (by decide)

/- ---------------------------------------------------------------------- -/
/- Formatting state machine (`close_formatting`, `apply_formatting`).      -/
/- ---------------------------------------------------------------------- -/

/-- `MarkdownWriter::close_formatting`: close any open markers in the fixed
order strikethrough, italic, bold. -/
def close_formatting (w : MarkdownWriter) : MarkdownWriter :=
  let w :=
    if w.current_strikethrough then
      { w with buffer := w.buffer ++ "~~".toList, current_strikethrough := false }
    else w
  let w :=
    if w.current_italic then
      { w with buffer := w.buffer ++ "*".toList, current_italic := false }
    else w
  if w.current_bold then
    { w with buffer := w.buffer ++ "**".toList, current_bold := false }
  else w

/-- `MarkdownWriter::apply_formatting`: emit the minimal marker transitions
from the current open-marker state to the desired `(bold, italic,
strikethrough)` triple.  The changed-flags are computed against the original
state, closing happens strikethrough → italic → bold and opening bold →
italic → strikethrough, exactly as in the source. -/
def apply_formatting (w : MarkdownWriter) (bold italic strikethrough : Bool) :
    MarkdownWriter :=
  let bold_changed := bold != w.current_bold
  let italic_changed := italic != w.current_italic
  let strike_changed := strikethrough != w.current_strikethrough
  if !bold_changed && !italic_changed && !strike_changed then w
  else
    let w :=
      if strike_changed && w.current_strikethrough then
        { w with buffer := w.buffer ++ "~~".toList, current_strikethrough := false }
      else w
    let w :=
      if italic_changed && w.current_italic then
        { w with buffer := w.buffer ++ "*".toList, current_italic := false }
      else w
    let w :=
      if bold_changed && w.current_bold then
        { w with buffer := w.buffer ++ "**".toList, current_bold := false }
      else w
    let w :=
      if bold_changed && bold then
        { w with buffer := w.buffer ++ "**".toList, current_bold := true }
      else w
    let w :=
      if italic_changed && italic then
        { w with buffer := w.buffer ++ "*".toList, current_italic := true }
      else w
    if strike_changed && strikethrough then
      { w with buffer := w.buffer ++ "~~".toList, current_strikethrough := true }
    else w

/- ---------------------------------------------------------------------- -/
/- Formulas.                                                               -/
/- ---------------------------------------------------------------------- -/

/-- `MarkdownWriter::format_formula`: wrap a formula in the configured
delimiter pair (inline or display). -/
def format_formula (options : MarkdownOptions) (formula : List Char)
    (inline : Bool) : List Char :=
  if inline then
    match options.formula_style with
    | FormulaStyle.latex => ("\\(".toList) ++ formula ++ "\\)".toList
    | FormulaStyle.dollar => ("$".toList) ++ formula ++ "$".toList
  else
    match options.formula_style with
    | FormulaStyle.latex => ("\\[".toList) ++ formula ++ "\\]".toList
    | FormulaStyle.dollar => ("$$".toList) ++ formula ++ "$$".toList

/-- `MarkdownWriter::convert_mtef_to_latex`: a failed conversion is replaced
by the fixed placeholder.  The external `LatexConverter` is represented by
the result it returns for the payload. -/
def convert_mtef_to_latex (conv : Except Unit (List Char)) : List Char :=
  match conv with
  | Except.ok latex => latex
  | Except.error _ => "[Formula conversion error]".toList

/-- `MarkdownWriter::convert_omml_to_latex`: same recovery for OMML. -/
def convert_omml_to_latex (conv : Except Unit (List Char)) : List Char :=
  match conv with
  | Except.ok latex => latex
  | Except.error _ => "[Formula conversion error]".toList

/-- `MarkdownWriter::extract_formula_from_run`: probe the run's math payload
and return the delimited inline markdown for it, `none` when the run carries
no formula.  The `Result` of the source only transports accessor errors,
which are total here. -/
def extract_formula_from_run (options : MarkdownOptions) (run : Run) :
    Option (List Char) :=
  match run.formula with
  | some (FormulaPayload.omml conv) =>
    some (format_formula options (convert_omml_to_latex conv) true)
  | some (FormulaPayload.mtefAst conv) =>
    some (format_formula options (convert_mtef_to_latex conv) true)
  | some FormulaPayload.mtefNoAst =>
    some (format_formula options ("[Formula]".toList) true)
  | none => none

/- ---------------------------------------------------------------------- -/
/- Superscript/subscript transliteration.                                  -/
/- ---------------------------------------------------------------------- -/

/-- Modelled from the spec: the Unicode transliteration map of the
`markdown::unicode` module (not under `src/`); per the spec the conversion
applies only when every character has a Unicode equivalent, otherwise the
writer falls back to HTML tags.  The exact table is external; digits and
signs suffice for this development (no claim exercises it). -/
def superscript_char : Char → Option Char
  | '0' => some '⁰' | '1' => some '¹' | '2' => some '²' | '3' => some '³'
  | '4' => some '⁴' | '5' => some '⁵' | '6' => some '⁶' | '7' => some '⁷'
  | '8' => some '⁸' | '9' => some '⁹' | '+' => some '⁺' | '-' => some '⁻'
  | _ => none

/-- Modelled from the spec: subscript companion of `superscript_char`. -/
def subscript_char : Char → Option Char
  | '0' => some '₀' | '1' => some '₁' | '2' => some '₂' | '3' => some '₃'
  | '4' => some '₄' | '5' => some '₅' | '6' => some '₆' | '7' => some '₇'
  | '8' => some '₈' | '9' => some '₉' | '+' => some '₊' | '-' => some '₋'
  | _ => none

def can_convert_to_superscript (t : List Char) : Bool :=
  t.all (fun c => (superscript_char c).isSome)

def convert_to_superscript (t : List Char) : List Char :=
  t.filterMap superscript_char

def can_convert_to_subscript (t : List Char) : Bool :=
  t.all (fun c => (subscript_char c).isSome)

def convert_to_subscript (t : List Char) : List Char :=
  t.filterMap subscript_char

/- ---------------------------------------------------------------------- -/
/- Run writing (`write_run_with_properties`, `write_run`).                 -/
/- ---------------------------------------------------------------------- -/

/-- `MarkdownWriter::write_run_with_properties`.  The `reserve` call of the
source only pre-allocates capacity and is dropped. -/
def write_run_with_properties (text : List Char) (bold italic strikethrough : Bool)
    (vertical_pos : Option VerticalPosition) (w : MarkdownWriter) :
    Except RenderErr MarkdownWriter :=
  match vertical_pos with
  | some pos =>
    match w.options.script_style with
    | ScriptStyle.html =>
      match pos with
      | VerticalPosition.superscript =>
        Except.ok (w.push_str (("<sup>".toList) ++ text ++ "</sup>".toList))
      | VerticalPosition.subscript =>
        Except.ok (w.push_str (("<sub>".toList) ++ text ++ "</sub>".toList))
      | VerticalPosition.normal => Except.ok (w.push_str text)
    | ScriptStyle.unicode =>
      match pos with
      | VerticalPosition.superscript =>
        if can_convert_to_superscript text then
          Except.ok (w.push_str (convert_to_superscript text))
        else
          Except.ok (w.push_str (("<sup>".toList) ++ text ++ "</sup>".toList))
      | VerticalPosition.subscript =>
        if can_convert_to_subscript text then
          Except.ok (w.push_str (convert_to_subscript text))
        else
          Except.ok (w.push_str (("<sub>".toList) ++ text ++ "</sub>".toList))
      | VerticalPosition.normal => Except.ok (w.push_str text)
  | none =>
    if (w.options.strikethrough_style = StrikethroughStyle.html) ∧ strikethrough = true then
      let w := close_formatting w
      let inner :=
        match bold, italic with
        | true, true => ("***".toList) ++ text ++ "***".toList
        | true, false => ("**".toList) ++ text ++ "**".toList
        | false, true => ("*".toList) ++ text ++ "*".toList
        | false, false => text
      Except.ok (w.push_str (("<del>".toList) ++ inner ++ "</del>".toList))
    else
      let w := apply_formatting w bold italic strikethrough
      Except.ok (w.push_str text)

/-- `MarkdownWriter::write_run`: formula payloads take precedence, an empty
text is a no-op, otherwise the tri-state flags default to `false` and the
run is written through the state machine. -/
def write_run (run : Run) (w : MarkdownWriter) : Except RenderErr MarkdownWriter :=
  match extract_formula_from_run w.options run with
  | some formula_markdown => Except.ok (w.push_str formula_markdown)
  | none =>
    if run.text = [] then Except.ok w
    else
      let bold := run.bold.getD false
      let italic := run.italic.getD false
      let strikethrough := run.strikethrough.getD false
      let vertical_pos := run.vertical_position
      write_run_with_properties run.text bold italic strikethrough vertical_pos w

/- ---------------------------------------------------------------------- -/
/- List detection and normalization.                                       -/
/- ---------------------------------------------------------------------- -/

/-- First branch of `extract_ordered_list_marker`: a digit run followed by
`.` followed by a space.  `find('.')` is the first occurrence; the slice
bounds are byte indices, which coincide with character indices because the
accepted prefix is ASCII. -/
def olm_dot (text : List Char) : Option (List Char × List Char) :=
  match text.findIdx? (fun c => c = '.') with
  | some pos =>
    if pos > 0 ∧ (text.take pos).all Char.isDigit then
      let marker_end := pos + 1
      if text.length > marker_end ∧ text.get? marker_end = some ' ' then
        some (text.take marker_end, text.drop (marker_end + 1))
      else none
    else none
  | none => none

/-- Second branch: a digit run followed by `)` followed by a space. -/
def olm_close_paren (text : List Char) : Option (List Char × List Char) :=
  match text.findIdx? (fun c => c = ')') with
  | some pos =>
    if pos > 0 ∧ (text.take pos).all Char.isDigit then
      let marker_end := pos + 1
      if text.length > marker_end ∧ text.get? marker_end = some ' ' then
        some (text.take marker_end, text.drop (marker_end + 1))
      else none
    else none
  | none => none

/-- Third branch: a parenthesized digit run, `(1) ` style; `find(") ")` is
the first occurrence of the two-character pattern. -/
def olm_parenthesized (text : List Char) : Option (List Char × List Char) :=
  if text.take 1 = ['('] then
    match find_substring (") ".toList) text with
    | some end_pos =>
      let inner := (text.drop 1).take (end_pos - 1)
      if inner.all Char.isDigit then
        some (text.take (end_pos + 1), text.drop (end_pos + 2))
      else none
    | none => none
  else none

/-- `MarkdownWriter::extract_ordered_list_marker`: the three surface forms
tried in source order, each falling through to the next on failure. -/
def extract_ordered_list_marker (text : List Char) :
    Option (List Char × List Char) :=
  (olm_dot text).orElse fun _ =>
    (olm_close_paren text).orElse fun _ =>
      olm_parenthesized text

/-- `MarkdownWriter::extract_unordered_list_marker`: one of `-`, `*`, `•`
immediately followed by a space or tab; the content is the remainder with
leading whitespace trimmed. -/
def extract_unordered_list_marker (text : List Char) :
    Option (List Char × List Char) :=
  let try_marker := fun (m : List Char) =>
    if text.take m.length = m then
      let remaining := text.drop m.length
      if remaining.take 1 = [' '] ∨ remaining.take 1 = ['\t'] then
        some (m, trimStart remaining)
      else none
    else none
  (try_marker ("-".toList)).orElse fun _ =>
    (try_marker ("*".toList)).orElse fun _ =>
      try_marker ("•".toList)

/-- `MarkdownWriter::calculate_indent_level`: leading-whitespace length of
its argument, integer-divided by `list_indent`.  (Rust would panic on
`list_indent = 0`; `Nat` division yields 0 there, a case no claim uses.) -/
def calculate_indent_level (options : MarkdownOptions) (text : List Char) : Nat :=
  (text.length - (trimStart text).length) / options.list_indent

/-- `MarkdownWriter::detect_list_item`.  Note that the source shadows `text`
with `text.trim_start()` before anything else, so the level is computed on
the already-trimmed text. -/
def detect_list_item (options : MarkdownOptions) (text : List Char) :
    Option ListItemInfo :=
  let text := trimStart text
  match extract_ordered_list_marker text with
  | some captures =>
    some ⟨ListType.ordered, calculate_indent_level options text,
          captures.1, captures.2⟩
  | none =>
    match extract_unordered_list_marker text with
    | some captures =>
      some ⟨ListType.unordered, calculate_indent_level options text,
            captures.1, captures.2⟩
    | none => none

/-- Ordered-marker normalization used by the plain-text branch of
`write_paragraph` and by `write_list_item_from_runs` (identical in both):
keep a marker containing `.`; turn `(n)` into `n.`; otherwise replace every
`)` by `.`. -/
def normalize_ordered_marker (marker : List Char) : List Char :=
  if marker.contains '.' then marker
  else if marker.take 1 = ['('] ∧ ends_with marker [')'] = true then
    ((marker.drop 1).dropLast) ++ ".".toList
  else marker.map (fun c => if c = ')' then '.' else c)

/-- Ordered-marker normalization of the styled no-runs fallback branch of
`write_paragraph` (lines 390–405 of the source), which differs from the
other call sites: `(`-prefixed markers are stripped with
`trim_start_matches('(')`/`trim_end_matches(')')`, and anything else
defaults to `1.`. -/
def normalize_ordered_marker_fallback (marker : List Char) : List Char :=
  if marker.contains '.' then marker
  else if marker.take 1 = ['('] then
    (trim_end_matches_char ')' (trim_start_matches_char '(' marker)) ++ ".".toList
  else "1.".toList

/-- `MarkdownWriter::extract_text_from_runs`: concatenation of the runs'
texts. -/
def extract_text_from_runs (runs : List Run) : List Char :=
  runs.foldl (fun text run => text ++ run.text) []

/-- The run loop of `write_list_item_from_runs`: skip runs fully inside the
marker, write the tail of the run containing the marker end as plain text,
and write the remaining runs through `write_run`.  Lengths are byte lengths
in the source; the list markers are ASCII so they coincide with character
counts here. -/
def wli_runs_loop (marker_end_pos : Nat) (runs : List Run)
    (accumulated_len : Nat) (w : MarkdownWriter) :
    Except RenderErr MarkdownWriter :=
  match runs with
  | [] => Except.ok w
  | run :: rest =>
    let run_text := run.text
    let run_len := run_text.length
    if accumulated_len + run_len ≤ marker_end_pos then
      wli_runs_loop marker_end_pos rest (accumulated_len + run_len) w
    else if accumulated_len < marker_end_pos ∧
        accumulated_len + run_len > marker_end_pos then
      let skip_chars := marker_end_pos - accumulated_len
      let w := w.push_str (run_text.drop skip_chars)
      wli_runs_loop marker_end_pos rest (accumulated_len + run_len) w
    else
      match write_run run w with
      | Except.ok w => wli_runs_loop marker_end_pos rest (accumulated_len + run_len) w
      | Except.error e => Except.error e

/-- `MarkdownWriter::write_list_item_from_runs`. -/
def write_list_item_from_runs (runs : List Run) (list_info : ListItemInfo)
    (w : MarkdownWriter) : Except RenderErr MarkdownWriter :=
  let indent := List.replicate (list_info.level * w.options.list_indent) ' '
  let marker :=
    match list_info.list_type with
    | ListType.ordered => normalize_ordered_marker list_info.marker
    | ListType.unordered => "-".toList
  let w := w.push_str (indent ++ marker ++ [' '])
  let marker_end_pos := list_info.marker.length + 1
  wli_runs_loop marker_end_pos runs 0 w

/- ---------------------------------------------------------------------- -/
/- Paragraph writing.                                                      -/
/- ---------------------------------------------------------------------- -/

/-- `MarkdownWriter::write_paragraph_with_display_formulas` (the
`formula`-enabled version): run texts with non-blank content first, then a
newline unless the buffer already ends in one — note this inspects the whole
accumulated buffer — then each display formula (or the conversion-failure
placeholder) in display delimiters, one per line. -/
def write_paragraph_with_display_formulas (para : Paragraph)
    (w : MarkdownWriter) : Except RenderErr MarkdownWriter :=
  let w := para.runs.foldl
    (fun w run => if trimChars run.text ≠ [] then w.push_str run.text else w) w
  let w :=
    if !(ends_with w.buffer ("\n\n".toList)) && !(ends_with w.buffer ['\n']) then
      w.push_str ['\n']
    else w
  let w := para.display_formulas.foldl
    (fun w omml_conv =>
      let latex :=
        match omml_conv with
        | Except.ok l => l
        | Except.error _ => "[Formula conversion error]".toList
      (w.push_str (format_formula w.options latex false)).push_str ['\n']) w
  Except.ok w

/-- `MarkdownWriter::write_paragraph`.  The display-formula branch returns
early (before the common close/break epilogue); the styled branch goes
through runs, the plain branch through `para.text()`; both normalize list
markers as in the source, the styled no-runs fallback with its own variant. -/
def write_paragraph (para : Paragraph) (w : MarkdownWriter) :
    Except RenderErr MarkdownWriter :=
  if para.display_formulas ≠ [] then
    match write_paragraph_with_display_formulas para w with
    | Except.ok w => Except.ok (w.push_str ("\n\n".toList))
    | Except.error e => Except.error e
  else
    let body : Except RenderErr MarkdownWriter :=
      if w.options.include_styles then
        let runs := para.runs
        if runs = [] then
          let text := para.text
          if text ≠ [] then
            match detect_list_item w.options text with
            | some list_info =>
              let indent :=
                List.replicate (list_info.level * w.options.list_indent) ' '
              let marker :=
                match list_info.list_type with
                | ListType.ordered => normalize_ordered_marker_fallback list_info.marker
                | ListType.unordered => "-".toList
              let w := w.push_str (indent ++ marker ++ [' '])
              Except.ok (w.push_str
                (trimStart (trim_start_matches list_info.marker (trimStart text))))
            | none => Except.ok (w.push_str text)
          else Except.ok w
        else
          let text := extract_text_from_runs runs
          match detect_list_item w.options text with
          | some list_info => write_list_item_from_runs runs list_info w
          | none =>
            runs.foldlM (fun w run => write_run run w) w
      else
        let text := para.text
        match detect_list_item w.options text with
        | some list_info =>
          let indent := List.replicate (list_info.level * w.options.list_indent) ' '
          let marker :=
            match list_info.list_type with
            | ListType.ordered => normalize_ordered_marker list_info.marker
            | ListType.unordered => "-".toList
          Except.ok (w.push_str (indent ++ marker ++ [' '] ++ list_info.content))
        | none => Except.ok (w.push_str text)
    match body with
    | Except.ok w =>
      let w := close_formatting w
      Except.ok (w.push_str ("\n\n".toList))
    | Except.error e => Except.error e

/- ---------------------------------------------------------------------- -/
/- Table span analysis (`analyze_table_spans`) and cell extraction.        -/
/- ---------------------------------------------------------------------- -/

/-- `TABLE_PARALLEL_THRESHOLD`. -/
def TABLE_PARALLEL_THRESHOLD : Nat := 20

/-- `extract_table_cell_data`: one pass over the table collecting every
cell's text.  The parallel branch first collects the rows' cell vectors and
then maps over them; both branches extract the same texts in the same
order. -/
def extract_table_cell_data (table : Table) (use_parallel : Bool) :
    List (List (List Char)) :=
  let rows := table.rows
  if rows = [] then []
  else if use_parallel = true ∧ rows.length > TABLE_PARALLEL_THRESHOLD then
    let all_cells := rows.map (fun row => row.cells)
    all_cells.map (fun cells => cells.map (fun cell => cell.text))
  else
    rows.map (fun row => row.cells.map (fun cell => cell.text))

/-- The cell-data pre-extraction pass of `analyze_table_spans`
(`grid_span().unwrap_or(1)` and `v_merge().ok().flatten()` per cell); as in
`extract_table_cell_data`, the parallel branch collects rows first. -/
def cell_data_of (table : Table) (use_parallel : Bool) : List (List CellData) :=
  let rows := table.rows
  if use_parallel = true ∧ rows.length > TABLE_PARALLEL_THRESHOLD then
    let all_cells := rows.map (fun row => row.cells)
    all_cells.map (fun cells =>
      cells.map (fun cell => (⟨cell.grid_span.getD 1, cell.v_merge⟩ : CellData)))
  else
    rows.map (fun row =>
      row.cells.map (fun cell => (⟨cell.grid_span.getD 1, cell.v_merge⟩ : CellData)))

/-- First pass of `analyze_table_spans`: the maximum over rows of the sum of
the cells' grid spans. -/
def max_grid_cols_of (cell_data : List (List CellData)) : Nat :=
  cell_data.foldl
    (fun m row_cells => max m ((row_cells.map (fun c => c.grid_span)).sum)) 0

/-- `result[row][col]` read with the source's in-bounds accesses rendered
total (`CellSpan::new` outside the grid, which the source never reads). -/
def get_span (spans : List (List CellSpan)) (r c : Nat) : CellSpan :=
  (spans.getD r []).getD c CellSpan.new

/-- In-place update `spans[r][c] = s` (no-op out of bounds, which the source
never performs). -/
def set_span (spans : List (List CellSpan)) (r c : Nat) (s : CellSpan) :
    List (List CellSpan) :=
  spans.set r ((spans.getD r []).set c s)

/-- The cursor-advancing loop
`while grid_col < max_grid_cols && spans[row_idx][grid_col].skip`; called
with fuel `max_grid_cols - grid_col`, so fuel exhaustion coincides with the
`grid_col < max_grid_cols` bound of the source. -/
def skip_covered (spans : List (List CellSpan)) (row_idx : Nat) :
    Nat → Nat → Nat
  | 0, grid_col => grid_col
  | fuel + 1, grid_col =>
    if (get_span spans row_idx grid_col).skip then
      skip_covered spans row_idx fuel (grid_col + 1)
    else grid_col

/-- `for offset in 1..colspan { if grid_col + offset < max_grid_cols { mark
skipped } }`. -/
def mark_colspan_skips (spans : List (List CellSpan))
    (r grid_col colspan max_grid_cols : Nat) : List (List CellSpan) :=
  ((List.range colspan).drop 1).foldl
    (fun sp offset =>
      if grid_col + offset < max_grid_cols then
        set_span sp r (grid_col + offset) CellSpan.skipped
      else sp)
    spans

/-- The downward scan of the `VMergeState::Restart` arm: walk the rows below
while their `grid_col`-th *cell* (the source indexes the row's cell vector,
not the grid) continues the merge, marking each as skipped together with its
colspan-covered columns, and counting the rowspan. -/
def vmerge_scan (below : List (List CellData))
    (next_row_idx grid_col colspan max_grid_cols : Nat)
    (spans : List (List CellSpan)) (rowspan : Nat) :
    Nat × List (List CellSpan) :=
  match below with
  | [] => (rowspan, spans)
  | next_cells :: rest =>
    match next_cells.get? grid_col with
    | some next_cell =>
      if next_cell.v_merge = some VMergeState.cont then
        let spans := set_span spans next_row_idx grid_col CellSpan.skipped
        let spans := mark_colspan_skips spans next_row_idx grid_col colspan max_grid_cols
        vmerge_scan rest (next_row_idx + 1) grid_col colspan max_grid_cols
          spans (rowspan + 1)
      else (rowspan, spans)
    | none => (rowspan, spans)

/-- The per-row cell loop of the second pass of `analyze_table_spans`:
advance the cursor past skipped columns, stop at the grid edge, place the
cell's colspan, mark covered columns, and on a restart run the downward
vmerge scan before setting the rowspan. -/
def process_row_cells (cell_data : List (List CellData))
    (cells : List CellData) (row_idx max_grid_cols : Nat) (grid_col : Nat)
    (spans : List (List CellSpan)) : List (List CellSpan) :=
  match cells with
  | [] => spans
  | cell :: rest =>
    let grid_col := skip_covered spans row_idx (max_grid_cols - grid_col) grid_col
    if grid_col ≥ max_grid_cols then spans
    else
      let colspan := cell.grid_span
      let spans := set_span spans row_idx grid_col
        { get_span spans row_idx grid_col with colspan := colspan }
      let spans := mark_colspan_skips spans row_idx grid_col colspan max_grid_cols
      let spans :=
        match cell.v_merge with
        | some VMergeState.restart =>
          let scanned := vmerge_scan (cell_data.drop (row_idx + 1)) (row_idx + 1)
            grid_col colspan max_grid_cols spans 1
          set_span scanned.2 row_idx grid_col
            { get_span scanned.2 row_idx grid_col with rowspan := scanned.1 }
        | _ => spans
      process_row_cells cell_data rest row_idx max_grid_cols (grid_col + colspan) spans

/-- `analyze_table_spans`: the two-pass span computation of `writer.rs`. -/
def analyze_table_spans (table : Table) (use_parallel : Bool) :
    List (List CellSpan) :=
  let rows := table.rows
  if rows = [] then []
  else
    let cell_data := cell_data_of table use_parallel
    let max_grid_cols := max_grid_cols_of cell_data
    let spans := List.replicate rows.length (List.replicate max_grid_cols CellSpan.new)
    (cell_data.enum).foldl
      (fun spans p => process_row_cells cell_data p.2 p.1 max_grid_cols 0 spans)
      spans

/-- `MarkdownWriter::table_has_merged_cells`: the early-returning double
loop over raw cells, checking `grid_span > 1` or any `v_merge` state. -/
def table_has_merged_cells (table : Table) : Bool :=
  table.rows.any (fun row =>
    row.cells.any (fun cell =>
      decide (cell.grid_span.getD 1 > 1) || cell.v_merge.isSome))

/- ---------------------------------------------------------------------- -/
/- Table rendering.                                                        -/
/- ---------------------------------------------------------------------- -/

/-- One pipe-table row of `write_markdown_table` (the header loop and the
data-row loops push the same shape): `|`, then per cell a space, the escaped
text and ` |`, then a newline. -/
def md_row_chunk (row_texts : List (List Char)) : List Char :=
  '|' :: (row_texts.foldl
    (fun acc text => acc ++ [' '] ++ escape_markdown text ++ " |".toList) []
    ++ ['\n'])

/-- `MarkdownWriter::write_markdown_table`: header row, synthetic separator,
then the data rows; the parallel branch formats each row into its own buffer
and concatenates them in row order. -/
def write_markdown_table (table : Table) (w : MarkdownWriter) :
    Except RenderErr MarkdownWriter :=
  let cell_data := extract_table_cell_data table w.options.use_parallel
  if cell_data = [] then Except.ok w
  else
    let cell_count := (cell_data.headD []).length
    let header := md_row_chunk (cell_data.headD [])
    let separator :=
      '|' :: ((List.replicate cell_count ("----------|".toList)).flatten ++ ['\n'])
    let data :=
      if w.options.use_parallel = true ∧ cell_data.length > TABLE_PARALLEL_THRESHOLD then
        ((cell_data.tail.map md_row_chunk).foldl (fun a b => a ++ b) [])
      else
        cell_data.tail.foldl (fun acc row_texts => acc ++ md_row_chunk row_texts) []
    Except.ok (w.push_str (header ++ separator ++ data))

/-- The `format_cell` closure of `write_html_table`. -/
def format_cell (text tag : List Char) (span : CellSpan)
    (cell_indent : Option (List Char)) : List Char :=
  (cell_indent.getD [])
  ++ ['<'] ++ tag
  ++ (if span.colspan > 1 then
        (" colspan=\"".toList) ++ nat_chars span.colspan ++ "\"".toList
      else [])
  ++ (if span.rowspan > 1 then
        (" rowspan=\"".toList) ++ nat_chars span.rowspan ++ "\"".toList
      else [])
  ++ ['>']
  ++ escape_html text
  ++ "</".toList ++ tag ++ ['>']
  ++ (if cell_indent.isSome then ['\n'] else [])

/-- The `format_row` closure's `while text_idx < row_texts.len()` loop.  Each
iteration either consumes one text (non-skip position) or — in the
`span_info.skip` continue branch, which requires the cursor to sit on an
in-bounds skip entry — advances the cursor inside the span row, so
`row_texts.length + row.length` iterations suffice and the initial fuel
below never runs out. -/
def format_row_aux (spans : List (List CellSpan)) (row_idx : Nat)
    (tag : List Char) (cell_indent : Option (List Char)) :
    Nat → List (List Char) → Nat → List Char → List Char
  | 0, _, _, acc => acc
  | _ + 1, [], _, acc => acc
  | fuel + 1, text :: rest_texts, grid_col, acc =>
    let row_len := (spans.getD row_idx []).length
    let grid_col := skip_covered spans row_idx (row_len - grid_col) grid_col
    let span_info := ((spans.get? row_idx).bind (fun r => r.get? grid_col)).getD CellSpan.new
    if span_info.skip then
      format_row_aux spans row_idx tag cell_indent fuel (text :: rest_texts)
        (grid_col + 1) acc
    else
      format_row_aux spans row_idx tag cell_indent fuel rest_texts
        (grid_col + span_info.colspan)
        (acc ++ format_cell text tag span_info cell_indent)

/-- The `format_row` closure of `write_html_table`.  The skip-advancing inner
loop of the source is bounded by `spans[row_idx].len()`; `skip_covered` is
called with that bound. -/
def format_row (row_texts : List (List Char)) (row_idx : Nat)
    (tag : List Char) (spans : List (List CellSpan))
    (cell_indent : Option (List Char)) : List Char :=
  format_row_aux spans row_idx tag cell_indent
    (row_texts.length + (spans.getD row_idx []).length + 1) row_texts 0 []

/-- `MarkdownWriter::write_html_table`: minimal (compact) or styled
(indented) HTML table; the first row uses `th`, later rows `td`; the
parallel branches format the same rows with the same closure and concatenate
them in row order. -/
def write_html_table (table : Table) (styled : Bool) (w : MarkdownWriter) :
    Except RenderErr MarkdownWriter :=
  let cell_data := extract_table_cell_data table w.options.use_parallel
  if cell_data = [] then Except.ok w
  else
    let spans := analyze_table_spans table w.options.use_parallel
    if styled then
      let indent := List.replicate w.options.html_table_indent ' '
      let double_indent := indent ++ indent
      let row_html := fun (row_idx : Nat) (row_texts : List (List Char)) =>
        let tag := if row_idx = 0 then "th".toList else "td".toList
        indent ++ "<tr>\n".toList
        ++ format_row row_texts row_idx tag spans (some double_indent)
        ++ indent ++ "</tr>\n".toList
      let body :=
        if w.options.use_parallel = true ∧ cell_data.length > TABLE_PARALLEL_THRESHOLD then
          ((cell_data.enum.map (fun p => row_html p.1 p.2)).foldl (fun a b => a ++ b) [])
        else
          cell_data.enum.foldl (fun acc p => acc ++ row_html p.1 p.2) []
      Except.ok (w.push_str (("<table>\n".toList) ++ body ++ "</table>".toList))
    else
      let row_html := fun (row_idx : Nat) (row_texts : List (List Char)) =>
        let tag := if row_idx = 0 then "th".toList else "td".toList
        ("<tr>".toList) ++ format_row row_texts row_idx tag spans none ++ "</tr>".toList
      let body :=
        if w.options.use_parallel = true ∧ cell_data.length > TABLE_PARALLEL_THRESHOLD then
          ((cell_data.enum.map (fun p => row_html p.1 p.2)).foldl (fun a b => a ++ b) [])
        else
          cell_data.enum.foldl (fun acc p => acc ++ row_html p.1 p.2) []
      Except.ok (w.push_str (("<table>".toList) ++ body ++ "</table>".toList))

/-- `MarkdownWriter::write_table`: pipe table only for `Markdown` style
without merged cells (per `table_has_merged_cells`); every other combination
renders HTML; two blank-line spacing afterwards.  The match mirrors the
source's `Markdown if !has_merged_cells` guard followed by the
`MinimalHtml | Markdown` arm. -/
def write_table (table : Table) (w : MarkdownWriter) :
    Except RenderErr MarkdownWriter :=
  let has_merged_cells := table_has_merged_cells table
  let rendered :=
    match w.options.table_style with
    | TableStyle.markdown =>
      if !has_merged_cells then write_markdown_table table w
      else write_html_table table false w
    | TableStyle.minimalHtml => write_html_table table false w
    | TableStyle.styledHtml => write_html_table table true w
  match rendered with
  | Except.ok w => Except.ok (w.push_str ("\n\n".toList))
  | Except.error e => Except.error e

/- ---------------------------------------------------------------------- -/
/- Document orchestration (`markdown/document.rs`).                        -/
/- ---------------------------------------------------------------------- -/

/-- `MarkdownWriter::write_metadata`: push the YAML front matter when
metadata inclusion is enabled and it is non-empty. -/
def write_metadata (metadata_yaml : List Char) (w : MarkdownWriter) :
    Except RenderErr MarkdownWriter :=
  if w.options.include_metadata = false then Except.ok w
  else if metadata_yaml ≠ [] then Except.ok (w.push_str metadata_yaml)
  else Except.ok w

/-- `PARALLEL_THRESHOLD` of `markdown/document.rs`. -/
def PARALLEL_THRESHOLD : Nat := 50

/-- `Document::to_markdown_with_options` with the element-count threshold as
a parameter (the source hard-codes `PARALLEL_THRESHOLD`; the spec's testable
determinism property forces the threshold down to 1).  Parallel path: each
element rendered into a fresh writer, per-element errors discarded (the
source's `let _ =`), buffers concatenated in document order.  Sequential
path: one shared writer threaded through the elements. -/
def document_to_markdown (threshold : Nat) (doc : Document)
    (options : MarkdownOptions) : Except RenderErr (List Char) :=
  let metadata_step : Except RenderErr (List Char) :=
    if options.include_metadata then
      match write_metadata doc.metadata_yaml (MarkdownWriter.new options) with
      | Except.ok w => Except.ok w.buffer
      | Except.error e => Except.error e
    else Except.ok []
  match metadata_step with
  | Except.error e => Except.error e
  | Except.ok metadata_md =>
    let elements := doc.elements
    let content_step : Except RenderErr (List Char) :=
      if options.use_parallel = true ∧ elements.length ≥ threshold then
        let element_strings := elements.map (fun element =>
          let writer := MarkdownWriter.new options
          match element with
          | DocumentElement.para para =>
            (match write_paragraph para writer with
             | Except.ok w => w.buffer
             | Except.error _ => writer.buffer)
          | DocumentElement.table table =>
            (match write_table table writer with
             | Except.ok w => w.buffer
             | Except.error _ => writer.buffer))
        Except.ok (element_strings.foldl (fun a b => a ++ b) [])
      else
        match elements.foldlM
          (fun w element =>
            match element with
            | DocumentElement.para para => write_paragraph para w
            | DocumentElement.table table => write_table table w)
          (MarkdownWriter.new options) with
        | Except.ok w => Except.ok w.buffer
        | Except.error e => Except.error e
    match content_step with
    | Except.ok content_md => Except.ok (metadata_md ++ content_md)
    | Except.error e => Except.error e

/-- The source entry point, with the hard-coded threshold. -/
def to_markdown_with_options (doc : Document) (options : MarkdownOptions) :
    Except RenderErr (List Char) :=
  document_to_markdown PARALLEL_THRESHOLD doc options

/- ---------------------------------------------------------------------- -/
/- Spec-side measures and fixtures.                                        -/
/- ---------------------------------------------------------------------- -/

/-- The claim's tiling measure for one span-grid row: the sum of `colspan`
over non-skip cells plus the count of skip cells. -/
def rowTilingMeasure (row : List CellSpan) : Nat :=
  row.foldl (fun acc s => acc + (if s.skip then 1 else s.colspan)) 0

/-- The claim's indentation rule: leading-whitespace count of the untrimmed
paragraph text, integer-divided by the configured indent width. -/
def specIndentLevel (options : MarkdownOptions) (untrimmed : List Char) : Nat :=
  (untrimmed.length - (trimStart untrimmed).length) / options.list_indent

/-- The claim's span condition for C4: the computed spans contain no colspan
or rowspan greater than 1. -/
def spansAllSingle (spans : List (List CellSpan)) : Bool :=
  spans.all (fun row => row.all (fun s => decide (s.colspan ≤ 1) && decide (s.rowspan ≤ 1)))

/-- The raw-attribute merge-freedom condition that `write_table` actually
keys on (via `table_has_merged_cells`): no cell reports a grid span above 1
or any vertical-merge state. -/
def RawMergeFreeP (t : Table) : Prop :=
  ∀ r ∈ t.rows, ∀ c ∈ r.cells, c.grid_span.getD 1 ≤ 1 ∧ c.v_merge = none

/-- A fixed options value used by the concrete scenarios. -/
def defaultOptions : MarkdownOptions :=
  ⟨false, true, false, TableStyle.markdown, ScriptStyle.html,
   StrikethroughStyle.markdown, FormulaStyle.latex, 2, 2⟩

/-- Options with styles disabled (plain-text paragraph path). -/
def optsPlain : MarkdownOptions := { defaultOptions with include_styles := false }

/-- C2 failing input: row 0 is three unit cells, the first starting a
vertical merge; row 1 is the continue cell followed by a width-2 cell.  Both
rows sum to grid width 3, i.e. the table is well-formed OOXML. -/
def tableC2 : Table :=
  ⟨[⟨[⟨"A".toList, some 1, some VMergeState.restart⟩,
      ⟨"B".toList, some 1, none⟩,
      ⟨"C".toList, some 1, none⟩]⟩,
    ⟨[⟨[], some 1, some VMergeState.cont⟩,
      ⟨"D".toList, some 2, none⟩]⟩]⟩

/-- C3 input: 2-row, 2-grid-column table, row 0 a single width-2 cell, row 1
two ordinary cells. -/
def tableC3 : Table :=
  ⟨[⟨[⟨"A".toList, some 2, none⟩]⟩,
    ⟨[⟨"B".toList, some 1, none⟩, ⟨"C".toList, some 1, none⟩]⟩]⟩

/-- C4 counterexample input: a single cell that restarts a vertical merge
nothing continues, so its computed rowspan stays 1. -/
def tableC4 : Table := ⟨[⟨[⟨"X".toList, some 1, some VMergeState.restart⟩]⟩]⟩

/-- A paragraph whose text is carried by one plain run (used by C6). -/
def mkPara (s : String) : Paragraph :=
  ⟨[⟨s.toList, none, none, none, none, none⟩], s.toList, []⟩

/-- Options for the C7 failing input: an indent width of 4. -/
def opts7 : MarkdownOptions := { defaultOptions with list_indent := 4 }

/-- C1 failing input, first element: a plain paragraph. -/
def helloParagraph : Paragraph := ⟨[], "Hello".toList, []⟩

/-- C1 failing input, second element: a paragraph with no runs and one
display formula that converts to `x`. -/
def formulaParagraph : Paragraph := ⟨[], [], [Except.ok ("x".toList)]⟩

/-- C1 failing input: the two-element document. -/
def docC1 : Document :=
  ⟨[DocumentElement.para helloParagraph, DocumentElement.para formulaParagraph], []⟩

/-- C1 options: parallel rendering enabled. -/
def optsC1 : MarkdownOptions := { optsPlain with use_parallel := true }

/- ---------------------------------------------------------------------- -/
/- Claims C1, C2, C3, C6, C7, C10.                                         -/
/- ---------------------------------------------------------------------- -/

/-- Claim C1 (code bug): the sequential and the parallel document path are
not byte-identical.  On `docC1` — with `use_parallel` enabled and the
threshold forced down to 1, exactly the testing setup the spec names — the
parallel path inserts an extra newline before the display-formula paragraph:
`write_paragraph_with_display_formulas` pushes a leading `\n` whenever the
accumulated buffer does not already end in one, and the parallel path hands
every element a fresh empty buffer while the sequential path sees the
previous element's trailing `\n\n`. -/
theorem C1_paths_diverge :
    document_to_markdown 1 docC1 optsC1 =
      Except.ok ("Hello\n\n\n\\[x\\]\n\n\n".toList) ∧
    document_to_markdown PARALLEL_THRESHOLD docC1 optsC1 =
      Except.ok ("Hello\n\n\\[x\\]\n\n\n".toList) ∧
    ("Hello\n\n\n\\[x\\]\n\n\n".toList ≠ "Hello\n\n\\[x\\]\n\n\n".toList) := by
  refine ⟨by decide, by decide, by decide⟩

/-- Claim C2 (code bug): the span tiling invariant fails on `tableC2`, a
well-formed vertically-merged table.  The analyzer's cursor skips the column
covered by the merge *before* consuming the continue cell, so the continue
cell is re-placed one column to the right and the following width-2 cell
overflows the grid: row 1's tiling measure is 4 while `max_grid_columns` is
3 (row 0 still tiles exactly). -/
theorem C2_tiling_violated :
    (analyze_table_spans tableC2 false).map rowTilingMeasure = [3, 4] ∧
    max_grid_cols_of (cell_data_of tableC2 false) = 3 ∧
    analyze_table_spans tableC2 false =
      [[⟨1, 2, false⟩, ⟨1, 1, false⟩, ⟨1, 1, false⟩],
       [⟨1, 1, true⟩, ⟨1, 1, false⟩, ⟨2, 1, false⟩]] := by
  refine ⟨by decide, by decide, by decide⟩

/-- Claim C3: on the 2-row, 2-grid-column merge scenario the analyzer
returns exactly the claimed span grid, and the table renders as an HTML
table whose first row emits `<th colspan="2">` (HTML is chosen although the
configured style is `markdown`, because the table has a merge). -/
theorem C3_merge_scenario :
    analyze_table_spans tableC3 optsPlain.use_parallel =
      [[⟨2, 1, false⟩, ⟨1, 1, true⟩], [⟨1, 1, false⟩, ⟨1, 1, false⟩]] ∧
    write_table tableC3 (MarkdownWriter.new optsPlain) =
      Except.ok
        ⟨"<table><tr><th colspan=\"2\">A</th></tr><tr><td>B</td><td>C</td></tr></table>\n\n".toList,
         optsPlain, false, false, false⟩ := by
  refine ⟨by decide, by decide⟩

/-- Claim C6: each of `"1. First"`, `"1) First"`, `"(1) First"` is detected
as an ordered list item with content `First`, and both the plain-text
paragraph path and the styled run path emit the canonical marker `1.`, i.e.
the written output is `"1. First\n\n"` in all six combinations. -/
theorem C6_list_normalization :
    ((detect_list_item optsPlain ("1. First".toList)).map
        (fun li => (li.marker, li.content)) =
      some ("1.".toList, "First".toList)) ∧
    ((detect_list_item optsPlain ("1) First".toList)).map
        (fun li => (li.marker, li.content)) =
      some ("1)".toList, "First".toList)) ∧
    ((detect_list_item optsPlain ("(1) First".toList)).map
        (fun li => (li.marker, li.content)) =
      some ("(1)".toList, "First".toList)) ∧
    write_paragraph (mkPara "1. First") (MarkdownWriter.new optsPlain) =
      Except.ok ⟨"1. First\n\n".toList, optsPlain, false, false, false⟩ ∧
    write_paragraph (mkPara "1) First") (MarkdownWriter.new optsPlain) =
      Except.ok ⟨"1. First\n\n".toList, optsPlain, false, false, false⟩ ∧
    write_paragraph (mkPara "(1) First") (MarkdownWriter.new optsPlain) =
      Except.ok ⟨"1. First\n\n".toList, optsPlain, false, false, false⟩ ∧
    write_paragraph (mkPara "1. First") (MarkdownWriter.new defaultOptions) =
      Except.ok ⟨"1. First\n\n".toList, defaultOptions, false, false, false⟩ ∧
    write_paragraph (mkPara "1) First") (MarkdownWriter.new defaultOptions) =
      Except.ok ⟨"1. First\n\n".toList, defaultOptions, false, false, false⟩ ∧
    write_paragraph (mkPara "(1) First") (MarkdownWriter.new defaultOptions) =
      Except.ok ⟨"1. First\n\n".toList, defaultOptions, false, false, false⟩ := by
  refine ⟨by decide, by decide, by decide, by decide, by decide, by decide,
    by decide, by decide, by decide⟩

/-- Claim C7 (code bug): the computed nesting level is not the claimed
leading-whitespace count of the untrimmed text divided by the indent width.
`detect_list_item` shadows its argument with `text.trim_start()` before
calling `calculate_indent_level`, so the level is computed on the trimmed
text and is always 0: the four-space-indented item with `list_indent = 4`
gets level 0 where the claim demands 1. -/
theorem C7_level_always_zero :
    ((detect_list_item opts7 ("    - item".toList)).map (fun li => li.level) =
      some 0) ∧
    specIndentLevel opts7 ("    - item".toList) = 1 := by
  refine ⟨by decide, by decide⟩

/-- Claim C10: a run with empty text and no formula payload is a complete
no-op for `write_run` — it returns success with the writer (buffer, options
and all three marker-state flags) exactly unchanged, regardless of the
formatting flags and vertical position the run carries. -/
theorem C10_empty_run_noop (w : MarkdownWriter) (b i s : Option Bool)
    (v : Option VerticalPosition) :
    write_run ⟨[], b, i, s, v, none⟩ w = Except.ok w := by
  rfl

/- ---------------------------------------------------------------------- -/
/- Claim C9.                                                               -/
/- ---------------------------------------------------------------------- -/

lemma find_sub_aux_finds (p b : List Char) :
    ∀ (a : List Char) (i : Nat), (find_sub_aux p (a ++ (p ++ b)) i).isSome = true := by
  intro a
  induction a with
  | nil =>
    intro i
    cases p with
    | nil =>
      cases b with
      | nil => simp [find_sub_aux]
      | cons c rest => simp [find_sub_aux]
    | cons x p' =>
      have htake : ((x :: p') ++ b).take (x :: p').length = x :: p' :=
        List.take_left _ _
      simp [find_sub_aux, htake]
  | cons c a' ih =>
    intro i
    simp only [List.cons_append, find_sub_aux]
    split
    · rfl
    · exact ih (i + 1)

/-- Whatever surrounds it, a pattern placed inside a string is found by
`contains_sub`. -/
lemma contains_sub_append (p a b : List Char) :
    contains_sub p (a ++ (p ++ b)) = true := by
  unfold contains_sub find_substring
  exact find_sub_aux_finds p b a 0

/-- A run whose MTEF math payload fails external conversion. -/
def failingMtefRun : Run :=
  ⟨[], none, none, none, none, some (FormulaPayload.mtefAst (Except.error ()))⟩

/-- A paragraph with one display formula whose conversion fails. -/
def failingFormulaParagraph : Paragraph := ⟨[], [], [Except.error ()]⟩

lemma write_paragraph_failing_formula (opts : MarkdownOptions) (buf : List Char) :
    ∃ pre, (pre = [] ∨ pre = ['\n']) ∧
      write_paragraph failingFormulaParagraph ⟨buf, opts, false, false, false⟩ =
        Except.ok
          ⟨(((buf ++ pre)
              ++ format_formula opts ("[Formula conversion error]".toList) false)
              ++ ['\n']) ++ "\n\n".toList,
           opts, false, false, false⟩ := by
  unfold write_paragraph write_paragraph_with_display_formulas failingFormulaParagraph
  by_cases h1 : ends_with buf ['\n', '\n'] = false
  · by_cases h2 : ends_with buf ['\n'] = false
    · refine ⟨['\n'], Or.inr rfl, ?_⟩
      simp [h1, h2, MarkdownWriter.push_str, List.append_assoc]
    · refine ⟨[], Or.inl rfl, ?_⟩
      simp [h1, h2, MarkdownWriter.push_str, List.append_assoc]
  · refine ⟨[], Or.inl rfl, ?_⟩
    simp [h1, MarkdownWriter.push_str, List.append_assoc]

/-- Claim C9: a failed math conversion never surfaces as an error.  A run
whose MTEF payload fails conversion is written successfully, contributing
exactly the inline-delimited fixed placeholder; a paragraph whose display
formula fails conversion is written successfully (the enclosing
`write_paragraph` returns `Ok`), with the display-delimited placeholder in
the output. -/
theorem C9_conversion_failure_recovered (opts : MarkdownOptions) (buf : List Char) :
    (write_run failingMtefRun ⟨buf, opts, false, false, false⟩ =
      Except.ok
        ⟨buf ++ format_formula opts ("[Formula conversion error]".toList) true,
         opts, false, false, false⟩) ∧
    (∃ w', write_paragraph failingFormulaParagraph ⟨buf, opts, false, false, false⟩ =
        Except.ok w' ∧
      contains_sub (format_formula opts ("[Formula conversion error]".toList) false)
        w'.buffer = true) := by
  refine ⟨rfl, ?_⟩
  obtain ⟨pre, _, heq⟩ := write_paragraph_failing_formula opts buf
  refine ⟨_, heq, ?_⟩
  show contains_sub _
    ((((buf ++ pre)
        ++ format_formula opts ("[Formula conversion error]".toList) false)
        ++ ['\n']) ++ "\n\n".toList) = true
  have hb : ((((buf ++ pre)
      ++ format_formula opts ("[Formula conversion error]".toList) false)
      ++ ['\n']) ++ "\n\n".toList) =
      (buf ++ pre)
      ++ (format_formula opts ("[Formula conversion error]".toList) false
          ++ (['\n'] ++ "\n\n".toList)) := by
    simp [List.append_assoc]
  rw [hb]
  exact contains_sub_append _ (buf ++ pre) _

/- ---------------------------------------------------------------------- -/
/- Claim C5.                                                               -/
/- ---------------------------------------------------------------------- -/

/-- A run that is bold and nothing else (italic/strikethrough unset, no
vertical position, no formula). -/
def boldRun (t : List Char) : Run := ⟨t, some true, none, none, none, none⟩

/-- A run with `bold = false` and nothing else set. -/
def plainRun (t : List Char) : Run := ⟨t, some false, none, none, none, none⟩

lemma write_run_bold_opens (opts : MarkdownOptions) (buf t : List Char) (ht : t ≠ []) :
    write_run (boldRun t) ⟨buf, opts, false, false, false⟩ =
      Except.ok ⟨buf ++ ('*' :: '*' :: t), opts, true, false, false⟩ := by
  unfold write_run boldRun extract_formula_from_run write_run_with_properties apply_formatting
  simp [ht, MarkdownWriter.push_str]

lemma write_run_bold_continues (opts : MarkdownOptions) (buf t : List Char) (ht : t ≠ []) :
    write_run (boldRun t) ⟨buf, opts, true, false, false⟩ =
      Except.ok ⟨buf ++ t, opts, true, false, false⟩ := by
  unfold write_run boldRun extract_formula_from_run write_run_with_properties apply_formatting
  simp [ht, MarkdownWriter.push_str]

lemma write_run_plain_closes (opts : MarkdownOptions) (buf t : List Char) (ht : t ≠ []) :
    write_run (plainRun t) ⟨buf, opts, true, false, false⟩ =
      Except.ok ⟨buf ++ ('*' :: '*' :: t), opts, false, false, false⟩ := by
  unfold write_run plainRun extract_formula_from_run write_run_with_properties apply_formatting
  simp [ht, MarkdownWriter.push_str]

/-- Claim C5: starting from a writer with no open markers, three consecutive
non-empty runs that are identically bold produce exactly one opening `**`
before the first run's text and no markers between the runs; a following
non-bold run produces exactly one closing `**` before its plain text — the
final buffer is the old buffer plus `**` t1 t2 t3 `**` t4, with all marker
state closed again.  Markers are never emitted per run. -/
theorem C5_formatting_minimality (opts : MarkdownOptions) (buf t1 t2 t3 t4 : List Char)
    (h1 : t1 ≠ []) (h2 : t2 ≠ []) (h3 : t3 ≠ []) (h4 : t4 ≠ []) :
    ((write_run (boldRun t1) ⟨buf, opts, false, false, false⟩).bind fun w1 =>
      (write_run (boldRun t2) w1).bind fun w2 =>
        (write_run (boldRun t3) w2).bind fun w3 =>
          write_run (plainRun t4) w3) =
      Except.ok
        ⟨(((buf ++ ('*' :: '*' :: t1)) ++ t2) ++ t3) ++ ('*' :: '*' :: t4),
         opts, false, false, false⟩ := by
  rw [write_run_bold_opens opts buf t1 h1]
  show ((write_run (boldRun t2) _).bind fun w2 =>
      (write_run (boldRun t3) w2).bind fun w3 => write_run (plainRun t4) w3) = _
  rw [write_run_bold_continues opts _ t2 h2]
  show ((write_run (boldRun t3) _).bind fun w3 => write_run (plainRun t4) w3) = _
  rw [write_run_bold_continues opts _ t3 h3]
  show write_run (plainRun t4) _ = _
  rw [write_run_plain_closes opts _ t4 h4]

/-- Witness for C5 at `"a" "b" "c" "d"` with a fixed options value. -/
theorem C5_formatting_minimality_witness :
    ((write_run (boldRun ("a".toList)) ⟨[], defaultOptions, false, false, false⟩).bind fun w1 =>
      (write_run (boldRun ("b".toList)) w1).bind fun w2 =>
        (write_run (boldRun ("c".toList)) w2).bind fun w3 =>
          write_run (plainRun ("d".toList)) w3) =
      Except.ok
        ⟨((([] ++ ('*' :: '*' :: "a".toList)) ++ "b".toList) ++ "c".toList)
           ++ ('*' :: '*' :: "d".toList),
         defaultOptions, false, false, false⟩ :=
  C5_formatting_minimality defaultOptions [] ("a".toList) ("b".toList) ("c".toList)
    ("d".toList) (by decide) (by decide) (by decide) (by decide)

/- ---------------------------------------------------------------------- -/
/- Claim C4.                                                               -/
/- ---------------------------------------------------------------------- -/

lemma extract_table_cell_data_eq (table : Table) (use_parallel : Bool) :
    extract_table_cell_data table use_parallel =
      table.rows.map (fun row => row.cells.map (fun cell => cell.text)) := by
  simp only [extract_table_cell_data]
  split
  · rename_i hnil
    rw [hnil]
    rfl
  · split
    · simp [List.map_map]
    · rfl

lemma write_markdown_table_shape (table : Table) (w : MarkdownWriter)
    (h : table.rows ≠ []) :
    ∃ rest, write_markdown_table table w =
      Except.ok { w with buffer := w.buffer ++ ('|' :: rest) } := by
  have hcd : extract_table_cell_data table w.options.use_parallel ≠ [] := by
    rw [extract_table_cell_data_eq]
    simpa using h
  simp only [write_markdown_table]
  split
  · rename_i heq
    exact absurd heq hcd
  · exact ⟨_, rfl⟩

lemma write_html_table_shape (table : Table) (styled : Bool) (w : MarkdownWriter)
    (h : table.rows ≠ []) :
    ∃ rest, write_html_table table styled w =
      Except.ok { w with buffer := w.buffer ++ ("<table>".toList ++ rest) } := by
  have hcd : extract_table_cell_data table w.options.use_parallel ≠ [] := by
    rw [extract_table_cell_data_eq]
    simpa using h
  simp only [write_html_table]
  split
  · rename_i heq
    exact absurd heq hcd
  · split
    · exact ⟨_, rfl⟩
    · exact ⟨_, rfl⟩

lemma has_merged_iff (t : Table) :
    table_has_merged_cells t = false ↔ RawMergeFreeP t := by
  unfold table_has_merged_cells RawMergeFreeP
  rw [← Bool.not_eq_true]
  simp only [List.any_eq_true, Bool.or_eq_true, decide_eq_true_eq,
    Option.isSome_iff_exists]
  push_neg
  constructor
  · intro hno r hr c hc
    obtain ⟨h1, h2⟩ := hno r hr c hc
    refine ⟨h1, ?_⟩
    cases hvm : c.v_merge with
    | none => rfl
    | some x => exact absurd hvm (h2 x)
  · intro hfree r hr c hc
    obtain ⟨h1, h2⟩ := hfree r hr c hc
    refine ⟨h1, ?_⟩
    intro a ha
    rw [h2] at ha
    cases ha

/-- Counterexample to claim C4 as stated: for `tableC4` the computed spans
contain no colspan or rowspan greater than 1 (the lone `Restart` cell has
nothing continuing it) and the configured style is `markdown`, yet the
renderer emits an HTML `<table>`, not a pipe table — the decision is keyed
on the raw `v_merge` attribute, not on the computed spans. -/
theorem C4_counterexample :
    optsPlain.table_style = TableStyle.markdown ∧
    spansAllSingle (analyze_table_spans tableC4 optsPlain.use_parallel) = true ∧
    write_table tableC4 (MarkdownWriter.new optsPlain) =
      Except.ok ⟨"<table><tr><th>X</th></tr></table>\n\n".toList,
        optsPlain, false, false, false⟩ ∧
    ("<table><tr><th>X</th></tr></table>\n\n".toList.take 1 ≠ ['|']) := by
  refine ⟨by decide, by decide, by decide, by decide⟩

/-- Claim C4 (amended): for every non-empty table, the renderer emits a pipe
table (chunk starting with `|`) exactly when the configured style is
`markdown` and no cell reports a raw merge attribute (grid span above 1 or
any vertical-merge state); in every other case it emits an HTML `<table>`. -/
theorem C4_pipe_iff_raw_merge_free (opts : MarkdownOptions) (tbl : Table)
    (h : tbl.rows ≠ []) :
    ∃ w', write_table tbl (MarkdownWriter.new opts) = Except.ok w' ∧
      ((opts.table_style = TableStyle.markdown ∧ RawMergeFreeP tbl) ↔
        w'.buffer.take 1 = ['|']) ∧
      (¬(opts.table_style = TableStyle.markdown ∧ RawMergeFreeP tbl) ↔
        w'.buffer.take 7 = "<table>".toList) := by
  cases hst : opts.table_style with
  | markdown =>
    cases hmc : table_has_merged_cells tbl with
    | false =>
      have hfree : RawMergeFreeP tbl := (has_merged_iff tbl).mp hmc
      obtain ⟨rest, hr⟩ := write_markdown_table_shape tbl (MarkdownWriter.new opts) h
      simp only [MarkdownWriter.new, List.nil_append] at hr
      have hwt : write_table tbl (MarkdownWriter.new opts) =
          Except.ok ⟨('|' :: rest) ++ "\n\n".toList, opts, false, false, false⟩ := by
        unfold write_table
        simp only [MarkdownWriter.new, hst, hmc, Bool.not_false, if_true]
        rw [hr]
        rfl
      refine ⟨_, hwt, ?_, ?_⟩
      · exact ⟨fun _ => rfl, fun _ => ⟨rfl, hfree⟩⟩
      · constructor
        · intro hn
          exact absurd ⟨rfl, hfree⟩ hn
        · intro habs
          injection habs with hh _
          exact absurd hh (by decide)
    | true =>
      obtain ⟨rest, hr⟩ := write_html_table_shape tbl false (MarkdownWriter.new opts) h
      simp only [MarkdownWriter.new, List.nil_append] at hr
      have hwt : write_table tbl (MarkdownWriter.new opts) =
          Except.ok ⟨("<table>".toList ++ rest) ++ "\n\n".toList,
            opts, false, false, false⟩ := by
        unfold write_table
        simp only [MarkdownWriter.new, hst, hmc, Bool.not_true, Bool.false_eq_true,
          if_false]
        rw [hr]
        rfl
      have hnf : ¬(TableStyle.markdown = TableStyle.markdown ∧ RawMergeFreeP tbl) := by
        rintro ⟨-, hfree⟩
        rw [(has_merged_iff tbl).mpr hfree] at hmc
        exact Bool.noConfusion hmc
      refine ⟨_, hwt, ?_, ?_⟩
      · constructor
        · intro hpos
          exact absurd hpos hnf
        · intro habs
          injection habs with hh _
          exact absurd hh (by decide)
      · exact ⟨fun _ => rfl, fun _ => hnf⟩
  | minimalHtml =>
    obtain ⟨rest, hr⟩ := write_html_table_shape tbl false (MarkdownWriter.new opts) h
    simp only [MarkdownWriter.new, List.nil_append] at hr
    have hwt : write_table tbl (MarkdownWriter.new opts) =
        Except.ok ⟨("<table>".toList ++ rest) ++ "\n\n".toList,
          opts, false, false, false⟩ := by
      unfold write_table
      simp only [MarkdownWriter.new, hst]
      rw [hr]
      rfl
    have hnf : ¬(TableStyle.minimalHtml = TableStyle.markdown ∧ RawMergeFreeP tbl) :=
      fun hpos => absurd hpos.1 (by decide)
    refine ⟨_, hwt, ?_, ?_⟩
    · constructor
      · intro hpos
        exact absurd hpos hnf
      · intro habs
        injection habs with hh _
        exact absurd hh (by decide)
    · exact ⟨fun _ => rfl, fun _ => hnf⟩
  | styledHtml =>
    obtain ⟨rest, hr⟩ := write_html_table_shape tbl true (MarkdownWriter.new opts) h
    simp only [MarkdownWriter.new, List.nil_append] at hr
    have hwt : write_table tbl (MarkdownWriter.new opts) =
        Except.ok ⟨("<table>".toList ++ rest) ++ "\n\n".toList,
          opts, false, false, false⟩ := by
      unfold write_table
      simp only [MarkdownWriter.new, hst]
      rw [hr]
      rfl
    have hnf : ¬(TableStyle.styledHtml = TableStyle.markdown ∧ RawMergeFreeP tbl) :=
      fun hpos => absurd hpos.1 (by decide)
    refine ⟨_, hwt, ?_, ?_⟩
    · constructor
      · intro hpos
        exact absurd hpos hnf
      · intro habs
        injection habs with hh _
        exact absurd hh (by decide)
    · exact ⟨fun _ => rfl, fun _ => hnf⟩

/-- Witness for the amended C4 at a merge-free 1×1 table with markdown
style. -/
theorem C4_pipe_iff_raw_merge_free_witness :
    ∃ w', write_table ⟨[⟨[⟨"A".toList, none, none⟩]⟩]⟩
        (MarkdownWriter.new defaultOptions) = Except.ok w' ∧
      ((defaultOptions.table_style = TableStyle.markdown ∧
          RawMergeFreeP ⟨[⟨[⟨"A".toList, none, none⟩]⟩]⟩) ↔
        w'.buffer.take 1 = ['|']) ∧
      (¬(defaultOptions.table_style = TableStyle.markdown ∧
          RawMergeFreeP ⟨[⟨[⟨"A".toList, none, none⟩]⟩]⟩) ↔
        w'.buffer.take 7 = "<table>".toList) :=
  C4_pipe_iff_raw_merge_free defaultOptions ⟨[⟨[⟨"A".toList, none, none⟩]⟩]⟩
    (by decide)
